import Mathlib

/-!
Verification of the pypl2 high-level PL2 reading API.

The development is a shallow embedding of `src/pypl2api.py` (the functions
`pl2_ad`, `pl2_spikes`, `pl2_events`, `pl2_info` and the helpers `to_array`
and `to_array_nonzero`) together with the data structures declared in
`src/pypl2lib.py` (`PL2FileInfo`, `PL2AnalogChannelInfo`,
`PL2SpikeChannelInfo`, `PL2DigitalChannelInfo`).

Doubles (`ctypes.c_double`) are modelled as exact rationals, `c_short` and
`c_longlong` as `Int`, and the unsigned integer fields as `Nat`.  The native
reader `PL2FileReader.dll` is not part of the repository; its behaviour at
the foreign-function boundary (opening a file, filling caller-allocated
buffers, reporting actual element counts, resolving channels by index, name
or source) is modelled from the spec where indicated.  A `PL2File` value
stands for the contents of the file at the path handed to the API.

Python `assert` statements are modelled as `Except.error` results carrying
`PL2Error.assertionError`.
-/

/-- Field subset of ctypes structure `PL2FileInfo` (src/pypl2lib.py lines
39-62) read by the embedded functions: the timestamp tick frequency and the
per-kind channel counts.  The creator/reprocessor metadata, trodality and
recording-time fields are never read by `pypl2api.py` and are elided. -/
structure PL2FileInfo where
  m_TimestampFrequency : ℚ
  m_TotalNumberOfSpikeChannels : Nat
  m_TotalNumberOfAnalogChannels : Nat
  m_NumberOfDigitalChannels : Nat
  deriving DecidableEq

/-- Field subset of ctypes structure `PL2AnalogChannelInfo`
(src/pypl2lib.py lines 65-78) read by the embedded functions.  The
`m_Units` text and trodality fields are elided. -/
structure PL2AnalogChannelInfo where
  m_Name : String
  m_Source : Nat
  m_Channel : Nat
  m_ChannelEnabled : Nat
  m_ChannelRecordingEnabled : Nat
  m_SamplesPerSecond : ℚ
  m_CoeffToConvertToUnits : ℚ
  m_NumberOfValues : Nat
  m_MaximumNumberOfFragments : Nat
  deriving DecidableEq

/-- Field subset of ctypes structure `PL2SpikeChannelInfo`
(src/pypl2lib.py lines 81-102) read by the embedded functions.
`m_UnitCounts` is a `c_ulonglong * 256` array in the source; it is modelled
as a list (length 256 in any well-formed descriptor).  Threshold, sorting
and trodality fields are elided. -/
structure PL2SpikeChannelInfo where
  m_Name : String
  m_Source : Nat
  m_Channel : Nat
  m_ChannelEnabled : Nat
  m_ChannelRecordingEnabled : Nat
  m_SamplesPerSecond : ℚ
  m_CoeffToConvertToUnits : ℚ
  m_SamplesPerSpike : Nat
  m_UnitCounts : List Nat
  m_NumberOfSpikes : Nat
  deriving DecidableEq

/-- Ctypes structure `PL2DigitalChannelInfo` (src/pypl2lib.py lines
105-111); all fields kept. -/
structure PL2DigitalChannelInfo where
  m_Name : String
  m_Source : Nat
  m_Channel : Nat
  m_ChannelEnabled : Nat
  m_ChannelRecordingEnabled : Nat
  m_NumberOfEvents : Nat
  deriving DecidableEq

/-- Modelled from the spec: the per-channel payload held by the native
reader for one analog channel (spec section 4.3 and the docstrings of
`pl2_get_analog_channel_data`, src/pypl2lib.py lines 354-370).  The native
call reports the actual fragment and data-point counts through the two
output parameters and writes the listed values into the caller's buffers,
leaving any unwritten tail at its zero initialisation. -/
structure AnalogChannelData where
  numFragments : Nat
  numDataPoints : Nat
  fragmentTimestamps : List Int
  fragmentCounts : List Nat
  values : List Int
  deriving DecidableEq

/-- Modelled from the spec: the per-channel payload held by the native
reader for one spike channel (spec section 4.3 and the docstrings of
`pl2_get_spike_channel_data`, src/pypl2lib.py lines 588-605). -/
structure SpikeChannelData where
  numSpikes : Nat
  timestamps : List Nat
  units : List Nat
  values : List Int
  deriving DecidableEq

/-- Modelled from the spec: the per-channel payload held by the native
reader for one digital event channel (spec section 4.3 and the docstrings
of `pl2_get_digital_channel_data`, src/pypl2lib.py lines 813-829). -/
structure DigitalChannelData where
  numEvents : Nat
  timestamps : List Int
  values : List Nat
  deriving DecidableEq

/-- One analog channel of a PL2 file: descriptor plus native payload. -/
structure AnalogChannel where
  info : PL2AnalogChannelInfo
  data : AnalogChannelData
  deriving DecidableEq

/-- One spike channel of a PL2 file: descriptor plus native payload. -/
structure SpikeChannel where
  info : PL2SpikeChannelInfo
  data : SpikeChannelData
  deriving DecidableEq

/-- One digital event channel of a PL2 file: descriptor plus payload. -/
structure DigitalChannel where
  info : PL2DigitalChannelInfo
  data : DigitalChannelData
  deriving DecidableEq

/-- Modelled from the spec: the contents of one PL2 container file as served
by the native reader (spec section 3).  A `PL2File` value stands for the
file at the path passed to the API functions. -/
structure PL2File where
  fileInfo : PL2FileInfo
  analogChannels : List AnalogChannel
  spikeChannels : List SpikeChannel
  digitalChannels : List DigitalChannel
  deriving DecidableEq

/-- The channel argument of `pl2_ad` / `pl2_spikes` / `pl2_events`
(src/pypl2api.py): either a zero-based integer index or a channel name. -/
inductive Channel where
  | byIndex (i : Nat)
  | byName (s : String)
  deriving DecidableEq

/-- A Python `assert` failure inside the API functions. -/
inductive PL2Error where
  | assertionError
  deriving DecidableEq

/-- Embedding of `to_array` (src/pypl2api.py lines 24-25): a ctypes array
viewed as a sequence, unchanged. -/
def to_array (l : List α) : List α := l

/-- Embedding of `to_array_nonzero` (src/pypl2api.py lines 28-30):
`a[np.where(a)]` keeps exactly the entries of `a` that are nonzero, in
order. -/
def to_array_nonzero [Zero α] [DecidableEq α] (l : List α) : List α :=
  l.filter (fun x => decide (x ≠ 0))

/-- Modelled from the spec: a native `get_..._data` call writes the actual
elements into the zero-initialised caller buffer of the given capacity and
leaves the structurally-zero tail in place (spec sections 4.3 and 4.5). -/
def fillBuffer (cap : Nat) (pad : α) (data : List α) : List α :=
  data.take cap ++ List.replicate (cap - data.length) pad

/-- Numpy `reshape((n, s))` of a flat list into `n` contiguous rows of `s`
entries each (src/pypl2api.py lines 201-202). -/
def reshapeRows (s : Nat) : Nat → List α → List (List α)
  | 0, _ => []
  | n + 1, l => l.take s :: reshapeRows s n (l.drop s)

/-- Per-sample unit conversion used at src/pypl2api.py lines 114 and 201:
multiplication by the channel's `m_CoeffToConvertToUnits`. -/
def sample_to_volts (raw coeff : ℚ) : ℚ := raw * coeff

/-- Per-timestamp conversion used at src/pypl2api.py lines 112, 208 and
278: division by the file's `m_TimestampFrequency`. -/
def ticks_to_seconds (tick tickFrequency : ℚ) : ℚ := tick / tickFrequency

/-- Resolution of a channel by zero-based global index
(`pl2_get_analog_channel_info` and kin, src/pypl2lib.py lines 260-286):
position in the native channel catalog. -/
def resolveByIndex (l : List α) (i : Nat) : Option α := l.get? i

/-- Modelled from the spec: native resolution of a channel by a key (spec
section 4.2) returns the first catalog entry whose key matches exactly. -/
def resolveByKey [DecidableEq β] (key : α → β) (k : β) (l : List α) : Option α :=
  l.find? (fun c => decide (key c = k))

/-- Modelled from the spec: by-name resolution
(`pl2_get_analog_channel_info_by_name` and kin, src/pypl2lib.py lines
288-317) is a case-sensitive exact match on the channel name (spec section
4.2). -/
def resolveByName (getName : α → String) (name : String) (l : List α) : Option α :=
  resolveByKey getName name l

/-- Modelled from the spec: by-source resolution
(`pl2_get_analog_channel_info_by_source` and kin, src/pypl2lib.py lines
319-349) matches the (source id, one-based in-source channel number) pair
(spec section 4.2). -/
def resolveBySource (getSource getChannel : α → Nat) (source channel : Nat)
    (l : List α) : Option α :=
  resolveByKey (fun c => (getSource c, getChannel c)) (source, channel) l

/-- Channel lookup performed by `pl2_ad` for its two selector forms
(src/pypl2api.py lines 71-74). -/
def lookupAnalog (f : PL2File) : Channel → Option AnalogChannel
  | Channel.byIndex i => resolveByIndex f.analogChannels i
  | Channel.byName s => resolveByName (fun c => c.info.m_Name) s f.analogChannels

/-- Channel lookup performed by `pl2_spikes` for its two selector forms
(src/pypl2api.py lines 162-165). -/
def lookupSpike (f : PL2File) : Channel → Option SpikeChannel
  | Channel.byIndex i => resolveByIndex f.spikeChannels i
  | Channel.byName s => resolveByName (fun c => c.info.m_Name) s f.spikeChannels

/-- Channel lookup performed by `pl2_events` for its two selector forms
(src/pypl2api.py lines 247-250). -/
def lookupDigital (f : PL2File) : Channel → Option DigitalChannel
  | Channel.byIndex i => resolveByIndex f.digitalChannels i
  | Channel.byName s => resolveByName (fun c => c.info.m_Name) s f.digitalChannels

/-- A zero-initialised `PL2AnalogChannelInfo()` ctypes structure: the state
of the descriptor when the native info call fails and writes nothing. -/
def zeroAnalogChannelInfo : PL2AnalogChannelInfo :=
  { m_Name := r"", m_Source := 0, m_Channel := 0, m_ChannelEnabled := 0,
    m_ChannelRecordingEnabled := 0, m_SamplesPerSecond := 0,
    m_CoeffToConvertToUnits := 0, m_NumberOfValues := 0,
    m_MaximumNumberOfFragments := 0 }

/-- A zero-initialised `PL2SpikeChannelInfo()` ctypes structure
(src/pypl2api.py line 159). -/
def zeroSpikeChannelInfo : PL2SpikeChannelInfo :=
  { m_Name := r"", m_Source := 0, m_Channel := 0, m_ChannelEnabled := 0,
    m_ChannelRecordingEnabled := 0, m_SamplesPerSecond := 0,
    m_CoeffToConvertToUnits := 0, m_SamplesPerSpike := 0,
    m_UnitCounts := List.replicate 256 0, m_NumberOfSpikes := 0 }

/-- A zero-initialised `PL2DigitalChannelInfo()` ctypes structure. -/
def zeroDigitalChannelInfo : PL2DigitalChannelInfo :=
  { m_Name := r"", m_Source := 0, m_Channel := 0, m_ChannelEnabled := 0,
    m_ChannelRecordingEnabled := 0, m_NumberOfEvents := 0 }

/-- Return type of `pl2_ad`: the named tuple `PL2Ad` created at
src/pypl2api.py line 107. -/
structure PL2Ad where
  adfrequency : ℚ
  n : Nat
  timestamps : List ℚ
  fragmentcounts : List Nat
  ad : List ℚ
  deriving DecidableEq

/-- Return type of `pl2_spikes`: the named tuple `PL2Spikes` created at
src/pypl2api.py line 205. -/
structure PL2Spikes where
  n : Nat
  timestamps : List ℚ
  units : List Nat
  waveforms : List (List ℚ)
  deriving DecidableEq

/-- Return type of `pl2_events`: the named tuple `PL2DigitalEvents` created
at src/pypl2api.py line 275. -/
structure PL2DigitalEvents where
  n : Nat
  timestamps : List ℚ
  values : List Nat
  deriving DecidableEq

/-- Embedding of `pl2_ad` (src/pypl2api.py lines 33-114).  The file is
opened, the channel descriptor resolved by index or by name, buffers of the
descriptor's declared capacities are allocated, the data call fills them,
the two `assert` statements at lines 100-101 check the reported counts
against the capacities, the file is closed, and the named tuple is built.
When resolution fails natively the descriptor stays zero-filled, the data
call writes nothing, and the two count output parameters keep the initial
values set at lines 78-79 (the capacities). -/
def pl2_ad (f : PL2File) (channel : Channel) : Except PL2Error PL2Ad :=
  let resolved := lookupAnalog f channel
  let achannel_info := match resolved with
    | some c => c.info
    | none => zeroAnalogChannelInfo
  let num_fragments_returned : Nat := match resolved with
    | some c => c.data.numFragments
    | none => achannel_info.m_MaximumNumberOfFragments
  let num_data_points_returned : Nat := match resolved with
    | some c => c.data.numDataPoints
    | none => achannel_info.m_NumberOfValues
  let fragment_timestamps : List Int := match resolved with
    | some c => fillBuffer achannel_info.m_MaximumNumberOfFragments (0 : Int)
        c.data.fragmentTimestamps
    | none => List.replicate achannel_info.m_MaximumNumberOfFragments (0 : Int)
  let fragment_counts : List Nat := match resolved with
    | some c => fillBuffer achannel_info.m_MaximumNumberOfFragments (0 : Nat)
        c.data.fragmentCounts
    | none => List.replicate achannel_info.m_MaximumNumberOfFragments (0 : Nat)
  let values : List Int := match resolved with
    | some c => fillBuffer achannel_info.m_NumberOfValues (0 : Int) c.data.values
    | none => List.replicate achannel_info.m_NumberOfValues (0 : Int)
  if achannel_info.m_MaximumNumberOfFragments ≥ num_fragments_returned then
    if achannel_info.m_NumberOfValues ≥ num_data_points_returned then
      Except.ok
        { adfrequency := achannel_info.m_SamplesPerSecond
          n := num_data_points_returned
          timestamps := (to_array_nonzero fragment_timestamps).map
            (fun (t : Int) => ticks_to_seconds (t : ℚ) f.fileInfo.m_TimestampFrequency)
          fragmentcounts := to_array_nonzero fragment_counts
          ad := (to_array values).map
            (fun (v : Int) => sample_to_volts (v : ℚ) achannel_info.m_CoeffToConvertToUnits) }
    else Except.error PL2Error.assertionError
  else Except.error PL2Error.assertionError

/-- Embedding of `pl2_spikes` (src/pypl2api.py lines 117-210).  Buffers are
sized `m_NumberOfSpikes` (timestamps, units) and
`m_NumberOfSpikes * m_SamplesPerSpike` (values); the `assert` at line 188
requires the reported spike count to equal the descriptor's declared count
exactly; the flat value buffer is scaled by the coefficient and reshaped
into `num_spikes_returned` rows of `m_SamplesPerSpike` samples. -/
def pl2_spikes (f : PL2File) (channel : Channel) : Except PL2Error PL2Spikes :=
  let resolved := lookupSpike f channel
  let schannel_info := match resolved with
    | some c => c.info
    | none => zeroSpikeChannelInfo
  let num_spikes_returned : Nat := match resolved with
    | some c => c.data.numSpikes
    | none => schannel_info.m_NumberOfSpikes
  let spike_timestamps : List Nat := match resolved with
    | some c => fillBuffer schannel_info.m_NumberOfSpikes (0 : Nat) c.data.timestamps
    | none => List.replicate schannel_info.m_NumberOfSpikes (0 : Nat)
  let units : List Nat := match resolved with
    | some c => fillBuffer schannel_info.m_NumberOfSpikes (0 : Nat) c.data.units
    | none => List.replicate schannel_info.m_NumberOfSpikes (0 : Nat)
  let values : List Int := match resolved with
    | some c => fillBuffer (schannel_info.m_NumberOfSpikes * schannel_info.m_SamplesPerSpike)
        (0 : Int) c.data.values
    | none => List.replicate (schannel_info.m_NumberOfSpikes * schannel_info.m_SamplesPerSpike)
        (0 : Int)
  if schannel_info.m_NumberOfSpikes = num_spikes_returned then
    Except.ok
      { n := num_spikes_returned
        timestamps := spike_timestamps.map
          (fun (t : Nat) => ticks_to_seconds (t : ℚ) f.fileInfo.m_TimestampFrequency)
        units := units
        waveforms := reshapeRows schannel_info.m_SamplesPerSpike num_spikes_returned
          (values.map
            (fun (v : Int) => sample_to_volts (v : ℚ) schannel_info.m_CoeffToConvertToUnits)) }
  else Except.error PL2Error.assertionError

/-- Embedding of `pl2_events` (src/pypl2api.py lines 213-279).  Buffers are
sized `m_NumberOfEvents`; the `assert` at line 269 requires the reported
event count to equal the declared count exactly; timestamps are scaled to
seconds and the strobed values pass through unconverted. -/
def pl2_events (f : PL2File) (channel : Channel) : Except PL2Error PL2DigitalEvents :=
  let resolved := lookupDigital f channel
  let echannel_info := match resolved with
    | some c => c.info
    | none => zeroDigitalChannelInfo
  let num_events_returned : Nat := match resolved with
    | some c => c.data.numEvents
    | none => echannel_info.m_NumberOfEvents
  let event_timestamps : List Int := match resolved with
    | some c => fillBuffer echannel_info.m_NumberOfEvents (0 : Int) c.data.timestamps
    | none => List.replicate echannel_info.m_NumberOfEvents (0 : Int)
  let event_values : List Nat := match resolved with
    | some c => fillBuffer echannel_info.m_NumberOfEvents (0 : Nat) c.data.values
    | none => List.replicate echannel_info.m_NumberOfEvents (0 : Nat)
  if echannel_info.m_NumberOfEvents = num_events_returned then
    Except.ok
      { n := num_events_returned
        timestamps := event_timestamps.map
          (fun (t : Int) => ticks_to_seconds (t : ℚ) f.fileInfo.m_TimestampFrequency)
        values := event_values }
  else Except.error PL2Error.assertionError

/-- Row type of the `spike_info` named tuple (src/pypl2api.py line 356). -/
structure spike_info where
  channel : Nat
  name : String
  units : List Nat
  deriving DecidableEq

/-- Row type of the `event_info` named tuple (src/pypl2api.py line 357). -/
structure event_info where
  channel : Nat
  name : String
  n : Nat
  deriving DecidableEq

/-- Row type of the `ad_info` named tuple (src/pypl2api.py line 358). -/
structure ad_info where
  channel : Nat
  name : String
  n : Nat
  deriving DecidableEq

/-- Return type of `pl2_info`: the named tuple `PL2Info` created at
src/pypl2api.py line 387. -/
structure PL2Info where
  spikes : List spike_info
  events : List event_info
  ad : List ad_info
  deriving DecidableEq

/-- One ascending `for i in range(lo, lo+n)` loop that appends `step i` to
the result list whenever the body's filter accepts channel `i` (the loop
shape of src/pypl2api.py lines 361-382). -/
def scanIdx (step : Nat → Option β) : Nat → Nat → List β
  | _, 0 => []
  | lo, n + 1 =>
    match step lo with
    | some b => b :: scanIdx step (lo + 1) n
    | none => scanIdx step (lo + 1) n

/-- Embedding of `pl2_info` (src/pypl2api.py lines 282-389): scan the spike
channels once (keep the enabled ones as channel/name/unit-count rows), the
digital channels once (keep those with a nonzero event count), and the
analog channels once (keep the enabled ones), each in index order over the
counts reported by the file info.  A failed native info call leaves the
descriptor zero-filled, whose flag/count is zero, so the row is skipped. -/
def pl2_info (f : PL2File) : PL2Info :=
  { spikes := scanIdx (fun i => (f.spikeChannels.get? i).bind (fun c =>
      if c.info.m_ChannelEnabled ≠ 0 then
        some { channel := c.info.m_Channel, name := c.info.m_Name,
               units := c.info.m_UnitCounts }
      else none)) 0 f.fileInfo.m_TotalNumberOfSpikeChannels
    events := scanIdx (fun i => (f.digitalChannels.get? i).bind (fun c =>
      if c.info.m_NumberOfEvents ≠ 0 then
        some { channel := c.info.m_Channel, name := c.info.m_Name,
               n := c.info.m_NumberOfEvents }
      else none)) 0 f.fileInfo.m_NumberOfDigitalChannels
    ad := scanIdx (fun i => (f.analogChannels.get? i).bind (fun c =>
      if c.info.m_ChannelEnabled ≠ 0 then
        some { channel := c.info.m_Channel, name := c.info.m_Name,
               n := c.info.m_NumberOfValues }
      else none)) 0 f.fileInfo.m_TotalNumberOfAnalogChannels }

/-- True exactly on the success constructor of `Except`. -/
def exOk : Except ε α → Bool
  | Except.ok _ => true
  | Except.error _ => false

/-- The payload of a successful `Except`, if any. -/
def exValue? : Except ε α → Option α
  | Except.ok a => some a
  | Except.error _ => none

/-- Control-flow model of one `pl2_ad` call together with the open-handle
ledger: `PL2_OpenFile` (src/pypl2api.py line 67) opens the handle and
`PL2_CloseFile` (line 104) runs only after both asserts at lines 100-101
have passed; there is no try/finally, so an `AssertionError` propagates
with the handle still open.  The second component records whether the
handle is still open when the call returns or raises. -/
def pl2_ad_session (f : PL2File) (channel : Channel) : Except PL2Error PL2Ad × Bool :=
  match pl2_ad f channel with
  | Except.ok r => (Except.ok r, false)
  | Except.error e => (Except.error e, true)

/-- The same file with its timestamp tick frequency replaced, leaving every
channel untouched; used to state that `pl2_ad` never validates the
frequency. -/
def withTickFrequency (f : PL2File) (q : ℚ) : PL2File :=
  { f with fileInfo := { f.fileInfo with m_TimestampFrequency := q } }

/-- The analog channel of the spec section 8 scenario: 40,000 Hz sampling,
coefficient 0.001, 100 samples in a single fragment that starts at tick 0,
tick frequency 40,000. -/
def scenarioAnalogChannel : AnalogChannel :=
  { info := { m_Name := r"AI01", m_Source := 2, m_Channel := 1, m_ChannelEnabled := 1,
              m_ChannelRecordingEnabled := 1, m_SamplesPerSecond := 40000,
              m_CoeffToConvertToUnits := 1 / 1000, m_NumberOfValues := 100,
              m_MaximumNumberOfFragments := 1 }
    data := { numFragments := 1, numDataPoints := 100,
              fragmentTimestamps := [0], fragmentCounts := [100],
              values := List.replicate 100 1 } }

/-- The file of the spec section 8 analog scenario: one analog channel,
tick frequency 40,000. -/
def scenarioFile : PL2File :=
  { fileInfo := { m_TimestampFrequency := 40000, m_TotalNumberOfSpikeChannels := 0,
                  m_TotalNumberOfAnalogChannels := 1, m_NumberOfDigitalChannels := 0 }
    analogChannels := [scenarioAnalogChannel], spikeChannels := [], digitalChannels := [] }

/-- An analog channel whose native read reports fewer data points (2) than
the descriptor's declared capacity (4), so the value buffer keeps a
structurally-zero tail. -/
def padChannel : AnalogChannel :=
  { info := { m_Name := r"AI02", m_Source := 2, m_Channel := 2, m_ChannelEnabled := 1,
              m_ChannelRecordingEnabled := 1, m_SamplesPerSecond := 1000,
              m_CoeffToConvertToUnits := 1 / 2, m_NumberOfValues := 4,
              m_MaximumNumberOfFragments := 2 }
    data := { numFragments := 1, numDataPoints := 2,
              fragmentTimestamps := [8], fragmentCounts := [2], values := [7, 8] } }

/-- The record `pl2_ad` returns for `padChannel`: `n = 2` actual points but
four samples, the last two being converted structural zeros. -/
def padRecord : PL2Ad :=
  { adfrequency := 1000, n := 2, timestamps := [1 / 125], fragmentcounts := [2],
    ad := [7 / 2, 4, 0, 0] }

/-- A file holding just `padChannel`. -/
def padFile : PL2File :=
  { fileInfo := { m_TimestampFrequency := 1000, m_TotalNumberOfSpikeChannels := 0,
                  m_TotalNumberOfAnalogChannels := 1, m_NumberOfDigitalChannels := 0 }
    analogChannels := [padChannel], spikeChannels := [], digitalChannels := [] }

/-- The spike channel of the spec section 8 scenario: 2 spikes, 3 samples
per spike, raw values [1,2,3,4,5,6], coefficient 0.01. -/
def spikeScenarioChannel : SpikeChannel :=
  { info := { m_Name := r"SPK01", m_Source := 1, m_Channel := 1, m_ChannelEnabled := 1,
              m_ChannelRecordingEnabled := 1, m_SamplesPerSecond := 40000,
              m_CoeffToConvertToUnits := 1 / 100, m_SamplesPerSpike := 3,
              m_UnitCounts := List.replicate 256 0, m_NumberOfSpikes := 2 }
    data := { numSpikes := 2, timestamps := [100, 200], units := [0, 1],
              values := [1, 2, 3, 4, 5, 6] } }

/-- The file of the spec section 8 spike scenario. -/
def spikeScenarioFile : PL2File :=
  { fileInfo := { m_TimestampFrequency := 40000, m_TotalNumberOfSpikeChannels := 1,
                  m_TotalNumberOfAnalogChannels := 0, m_NumberOfDigitalChannels := 0 }
    analogChannels := [], spikeChannels := [spikeScenarioChannel], digitalChannels := [] }

/-- The record `pl2_spikes` returns for the spec section 8 spike
scenario. -/
def spikeScenarioRecord : PL2Spikes :=
  { n := 2, timestamps := [1 / 400, 1 / 200], units := [0, 1],
    waveforms := [[1 / 100, 1 / 50, 3 / 100], [1 / 25, 1 / 20, 3 / 50]] }

/-- A spike channel whose native read reports 1 spike although the
descriptor declares 2. -/
def underCountSpikeChannel : SpikeChannel :=
  { info := { m_Name := r"SPK02", m_Source := 1, m_Channel := 2, m_ChannelEnabled := 1,
              m_ChannelRecordingEnabled := 1, m_SamplesPerSecond := 40000,
              m_CoeffToConvertToUnits := 1 / 100, m_SamplesPerSpike := 3,
              m_UnitCounts := List.replicate 256 0, m_NumberOfSpikes := 2 }
    data := { numSpikes := 1, timestamps := [100], units := [0],
              values := [1, 2, 3] } }

/-- A digital event channel whose native read reports 2 events although the
descriptor declares 3. -/
def underCountDigitalChannel : DigitalChannel :=
  { info := { m_Name := r"EVT01", m_Source := 3, m_Channel := 1, m_ChannelEnabled := 1,
              m_ChannelRecordingEnabled := 1, m_NumberOfEvents := 3 }
    data := { numEvents := 2, timestamps := [10, 20], values := [1, 1] } }

/-- A file whose spike and event channels both report strictly fewer actual
elements than their declared capacities. -/
def underCountFile : PL2File :=
  { fileInfo := { m_TimestampFrequency := 1000, m_TotalNumberOfSpikeChannels := 1,
                  m_TotalNumberOfAnalogChannels := 0, m_NumberOfDigitalChannels := 1 }
    analogChannels := [], spikeChannels := [underCountSpikeChannel],
    digitalChannels := [underCountDigitalChannel] }

/-- An analog channel whose native read reports 2 fragments although the
descriptor declares capacity for only 1, so the capacity assert fails. -/
def overflowChannel : AnalogChannel :=
  { info := { m_Name := r"AI03", m_Source := 2, m_Channel := 3, m_ChannelEnabled := 1,
              m_ChannelRecordingEnabled := 1, m_SamplesPerSecond := 1000,
              m_CoeffToConvertToUnits := 1, m_NumberOfValues := 2,
              m_MaximumNumberOfFragments := 1 }
    data := { numFragments := 2, numDataPoints := 2, fragmentTimestamps := [0, 1],
              fragmentCounts := [1, 1], values := [1, 2] } }

/-- A file holding just `overflowChannel`. -/
def overflowFile : PL2File :=
  { fileInfo := { m_TimestampFrequency := 1000, m_TotalNumberOfSpikeChannels := 0,
                  m_TotalNumberOfAnalogChannels := 1, m_NumberOfDigitalChannels := 0 }
    analogChannels := [overflowChannel], spikeChannels := [], digitalChannels := [] }

/-- An analog channel inside a file whose sampling and tick frequencies are
both zero: a malformed descriptor in the sense of spec section 7. -/
def zeroFreqChannel : AnalogChannel :=
  { info := { m_Name := r"AI04", m_Source := 2, m_Channel := 4, m_ChannelEnabled := 1,
              m_ChannelRecordingEnabled := 1, m_SamplesPerSecond := 0,
              m_CoeffToConvertToUnits := 1 / 1000, m_NumberOfValues := 2,
              m_MaximumNumberOfFragments := 1 }
    data := { numFragments := 1, numDataPoints := 2, fragmentTimestamps := [5],
              fragmentCounts := [2], values := [1, 2] } }

/-- A file whose timestamp tick frequency is zero. -/
def zeroFreqFile : PL2File :=
  { fileInfo := { m_TimestampFrequency := 0, m_TotalNumberOfSpikeChannels := 0,
                  m_TotalNumberOfAnalogChannels := 1, m_NumberOfDigitalChannels := 0 }
    analogChannels := [zeroFreqChannel], spikeChannels := [], digitalChannels := [] }

/-- Enabled spike channel with no data, for the `pl2_info` fixture. -/
def infoSpikeOn : SpikeChannel :=
  { info := { m_Name := r"SPK03", m_Source := 1, m_Channel := 3, m_ChannelEnabled := 1,
              m_ChannelRecordingEnabled := 1, m_SamplesPerSecond := 40000,
              m_CoeffToConvertToUnits := 1 / 100, m_SamplesPerSpike := 0,
              m_UnitCounts := List.replicate 256 0, m_NumberOfSpikes := 0 }
    data := { numSpikes := 0, timestamps := [], units := [], values := [] } }

/-- Disabled spike channel, for the `pl2_info` fixture. -/
def infoSpikeOff : SpikeChannel :=
  { info := { m_Name := r"SPK04", m_Source := 1, m_Channel := 4, m_ChannelEnabled := 0,
              m_ChannelRecordingEnabled := 0, m_SamplesPerSecond := 40000,
              m_CoeffToConvertToUnits := 1 / 100, m_SamplesPerSpike := 0,
              m_UnitCounts := List.replicate 256 0, m_NumberOfSpikes := 0 }
    data := { numSpikes := 0, timestamps := [], units := [], values := [] } }

/-- Digital channel with a nonzero event count, for the `pl2_info`
fixture. -/
def infoDigOn : DigitalChannel :=
  { info := { m_Name := r"EVT02", m_Source := 3, m_Channel := 2, m_ChannelEnabled := 1,
              m_ChannelRecordingEnabled := 1, m_NumberOfEvents := 5 }
    data := { numEvents := 5, timestamps := [1, 2, 3, 4, 5], values := [0, 0, 0, 0, 0] } }

/-- Digital channel with a zero event count, for the `pl2_info` fixture. -/
def infoDigOff : DigitalChannel :=
  { info := { m_Name := r"EVT03", m_Source := 3, m_Channel := 3, m_ChannelEnabled := 1,
              m_ChannelRecordingEnabled := 1, m_NumberOfEvents := 0 }
    data := { numEvents := 0, timestamps := [], values := [] } }

/-- Enabled analog channel, for the `pl2_info` fixture. -/
def infoAdOn : AnalogChannel :=
  { info := { m_Name := r"AI05", m_Source := 2, m_Channel := 5, m_ChannelEnabled := 1,
              m_ChannelRecordingEnabled := 1, m_SamplesPerSecond := 1000,
              m_CoeffToConvertToUnits := 1, m_NumberOfValues := 6,
              m_MaximumNumberOfFragments := 1 }
    data := { numFragments := 1, numDataPoints := 6, fragmentTimestamps := [1],
              fragmentCounts := [6], values := [1, 2, 3, 4, 5, 6] } }

/-- Disabled analog channel, for the `pl2_info` fixture. -/
def infoAdOff : AnalogChannel :=
  { info := { m_Name := r"AI06", m_Source := 2, m_Channel := 6, m_ChannelEnabled := 0,
              m_ChannelRecordingEnabled := 0, m_SamplesPerSecond := 1000,
              m_CoeffToConvertToUnits := 1, m_NumberOfValues := 0,
              m_MaximumNumberOfFragments := 0 }
    data := { numFragments := 0, numDataPoints := 0, fragmentTimestamps := [],
              fragmentCounts := [], values := [] } }

/-- A file with one enabled and one disabled channel of each kind (for the
digital kind: one channel with events and one without). -/
def infoFile : PL2File :=
  { fileInfo := { m_TimestampFrequency := 1000, m_TotalNumberOfSpikeChannels := 2,
                  m_TotalNumberOfAnalogChannels := 2, m_NumberOfDigitalChannels := 2 }
    analogChannels := [infoAdOn, infoAdOff], spikeChannels := [infoSpikeOn, infoSpikeOff],
    digitalChannels := [infoDigOn, infoDigOff] }

/-- Number of positional arguments `pl2_ad` passes to
`PyPL2FileReader.pl2_get_file_info` (src/pypl2api.py line 68: the call
`p.pl2_get_file_info()`). -/
def argsPassed_pl2_get_file_info : Nat := 0

/-- Number of required parameters, after `self`, of
`PyPL2FileReader.pl2_get_file_info` (src/pypl2lib.py line 236:
`def pl2_get_file_info(self, pl2_file_info)`, no defaults). -/
def paramsRequired_pl2_get_file_info : Nat := 1

/-- Number of positional arguments `pl2_ad` passes to
`PyPL2FileReader.pl2_get_analog_channel_info` (src/pypl2api.py line 72:
`p.pl2_get_analog_channel_info(channel)`). -/
def argsPassed_pl2_get_analog_channel_info : Nat := 1

/-- Number of required parameters, after `self`, of
`PyPL2FileReader.pl2_get_analog_channel_info` (src/pypl2lib.py line 260:
`def pl2_get_analog_channel_info(self, zero_based_channel_index,
pl2_analog_channel_info)`, no defaults). -/
def paramsRequired_pl2_get_analog_channel_info : Nat := 2

/-- Number of positional arguments `pl2_ad` passes to
`PyPL2FileReader.pl2_get_analog_channel_info_by_name` (src/pypl2api.py
line 74). -/
def argsPassed_pl2_get_analog_channel_info_by_name : Nat := 1

/-- Number of required parameters, after `self`, of
`PyPL2FileReader.pl2_get_analog_channel_info_by_name` (src/pypl2lib.py
line 288). -/
def paramsRequired_pl2_get_analog_channel_info_by_name : Nat := 2

/-- Number of positional arguments the repository's own test fixture passes
to `PyPL2FileReader.pl2_get_file_info` (src/test_pypl2.py line 117:
`reader.pl2_get_file_info()`). -/
def argsPassedByTest_pl2_get_file_info : Nat := 0

/-- A Python method call binds without raising `TypeError` exactly when the
number of positional arguments passed equals the number of required
parameters: none of the reader methods involved declares defaults or
varargs. -/
def pythonCallBinds (passed required : Nat) : Bool := passed == required

theorem fillBuffer_length (cap : Nat) (pad : α) (data : List α) :
    (fillBuffer cap pad data).length = cap := by
  simp [fillBuffer]
  omega

theorem reshapeRows_length (s n : Nat) (l : List α) :
    (reshapeRows s n l).length = n := by
  induction n generalizing l with
  | zero => simp [reshapeRows]
  | succ n ih => simp [reshapeRows, ih]

theorem reshapeRows_row_length (s n : Nat) (l : List α) (hl : l.length = n * s) :
    ∀ w ∈ reshapeRows s n l, w.length = s := by
  induction n generalizing l with
  | zero => simp [reshapeRows]
  | succ n ih =>
    intro w hw
    rcases List.mem_cons.mp hw with hw | hw
    · subst hw
      simp only [List.length_take, hl]
      have : s ≤ (n + 1) * s := Nat.le_mul_of_pos_left s (Nat.succ_pos n)
      omega
    · exact ih (l.drop s) (by simp [hl, Nat.succ_mul]) w hw

theorem reshapeRows_flatten (s n : Nat) (l : List α) (hl : l.length = n * s) :
    (reshapeRows s n l).flatten = l := by
  induction n generalizing l with
  | zero =>
    have : l = [] := List.eq_nil_of_length_eq_zero (by simp [hl])
    simp [reshapeRows, this]
  | succ n ih =>
    simp only [reshapeRows, List.flatten_cons]
    rw [ih (l.drop s) (by simp [hl, Nat.succ_mul]), List.take_append_drop]

theorem resolveByKey_of_get [DecidableEq β] (key : α → β) (l : List α) (i : Nat) (c : α)
    (hu : l.Pairwise (fun a b => key a ≠ key b)) (hc : l.get? i = some c) :
    resolveByKey key (key c) l = some c := by
  induction l generalizing i with
  | nil => simp [resolveByIndex] at hc
  | cons a t ih =>
    rcases List.pairwise_cons.mp hu with ⟨ha, ht⟩
    cases i with
    | zero =>
      simp only [List.get?] at hc
      cases hc
      exact List.find?_cons_of_pos t (by simp)
    | succ j =>
      simp only [List.get?] at hc
      have hmem : c ∈ t := List.get?_mem hc
      have hne : key a ≠ key c := ha c hmem
      unfold resolveByKey
      rw [List.find?_cons_of_neg t (by simpa using hne)]
      exact ih j ht hc

theorem scanIdx_eq_filterMap (step : Nat → Option β) (lo n : Nat) :
    scanIdx step lo n = (List.range' lo n).filterMap step := by
  induction n generalizing lo with
  | zero => simp [scanIdx]
  | succ n ih =>
    rw [List.range'_succ, List.filterMap_cons]
    simp only [scanIdx]
    cases step lo <;> simp [ih]

theorem range_filterMap_get? (l : List α) (g : α → Option β) :
    (List.range l.length).filterMap (fun i => (l.get? i).bind g) = l.filterMap g := by
  induction l with
  | nil => simp
  | cons a t ih =>
    rw [List.length_cons, List.range_succ_eq_map, List.filterMap_cons,
      List.filterMap_map]
    have hcomp :
        ((fun i => ((a :: t).get? i).bind g) ∘ Nat.succ) = fun i => (t.get? i).bind g := by
      funext i
      simp [List.get?]
    rw [hcomp, ih, List.filterMap_cons]
    cases hga : g a <;> simp [List.get?, hga]

theorem filterMap_ite (p : α → Prop) [DecidablePred p] (g : α → β) (l : List α) :
    l.filterMap (fun c => if p c then some (g c) else none) =
      (l.filter (fun c => decide (p c))).map g := by
  induction l with
  | nil => simp
  | cons a t ih =>
    by_cases h : p a <;> simp [h, ih]

theorem pl2_ad_of_lookup (f : PL2File) (ch : Channel) (c : AnalogChannel)
    (hc : lookupAnalog f ch = some c) :
    pl2_ad f ch =
      if c.info.m_MaximumNumberOfFragments ≥ c.data.numFragments then
        if c.info.m_NumberOfValues ≥ c.data.numDataPoints then
          Except.ok
            { adfrequency := c.info.m_SamplesPerSecond
              n := c.data.numDataPoints
              timestamps := (to_array_nonzero (fillBuffer c.info.m_MaximumNumberOfFragments
                  (0 : Int) c.data.fragmentTimestamps)).map
                (fun (t : Int) => ticks_to_seconds (t : ℚ) f.fileInfo.m_TimestampFrequency)
              fragmentcounts := to_array_nonzero (fillBuffer c.info.m_MaximumNumberOfFragments
                (0 : Nat) c.data.fragmentCounts)
              ad := (to_array (fillBuffer c.info.m_NumberOfValues (0 : Int) c.data.values)).map
                (fun (v : Int) => sample_to_volts (v : ℚ) c.info.m_CoeffToConvertToUnits) }
        else Except.error PL2Error.assertionError
      else Except.error PL2Error.assertionError := by
  simp only [pl2_ad, hc]

theorem pl2_ad_of_lookup_none (f : PL2File) (ch : Channel)
    (hc : lookupAnalog f ch = none) :
    pl2_ad f ch =
      Except.ok { adfrequency := 0, n := 0, timestamps := [], fragmentcounts := [],
                  ad := [] } := by
  simp [pl2_ad, hc, zeroAnalogChannelInfo, to_array, to_array_nonzero]

theorem pl2_spikes_of_lookup (f : PL2File) (ch : Channel) (c : SpikeChannel)
    (hc : lookupSpike f ch = some c) :
    pl2_spikes f ch =
      if c.info.m_NumberOfSpikes = c.data.numSpikes then
        Except.ok
          { n := c.data.numSpikes
            timestamps := (fillBuffer c.info.m_NumberOfSpikes (0 : Nat)
                c.data.timestamps).map
              (fun (t : Nat) => ticks_to_seconds (t : ℚ) f.fileInfo.m_TimestampFrequency)
            units := fillBuffer c.info.m_NumberOfSpikes (0 : Nat) c.data.units
            waveforms := reshapeRows c.info.m_SamplesPerSpike c.data.numSpikes
              ((fillBuffer (c.info.m_NumberOfSpikes * c.info.m_SamplesPerSpike) (0 : Int)
                  c.data.values).map
                (fun (v : Int) => sample_to_volts (v : ℚ) c.info.m_CoeffToConvertToUnits)) }
      else Except.error PL2Error.assertionError := by
  simp only [pl2_spikes, hc]

theorem pl2_events_of_lookup (f : PL2File) (ch : Channel) (c : DigitalChannel)
    (hc : lookupDigital f ch = some c) :
    pl2_events f ch =
      if c.info.m_NumberOfEvents = c.data.numEvents then
        Except.ok
          { n := c.data.numEvents
            timestamps := (fillBuffer c.info.m_NumberOfEvents (0 : Int)
                c.data.timestamps).map
              (fun (t : Int) => ticks_to_seconds (t : ℚ) f.fileInfo.m_TimestampFrequency)
            values := fillBuffer c.info.m_NumberOfEvents (0 : Nat) c.data.values }
      else Except.error PL2Error.assertionError := by
  simp only [pl2_events, hc]

theorem lookupAnalog_withTickFrequency (f : PL2File) (q : ℚ) (ch : Channel) :
    lookupAnalog (withTickFrequency f q) ch = lookupAnalog f ch := by
  cases ch <;> rfl

/-- C1: evaluation of `pl2_ad` at the spec section 8 analog scenario (one
channel, 40,000 Hz, coefficient 0.001, 100 samples in one fragment starting
at tick 0, tick frequency 40,000).  The claim requires the fragment list
`[(0.0, 100)]` with the tick-0 timestamp kept; the code applies
`to_array_nonzero` to the fragment-timestamp array itself (src/pypl2api.py
line 112), which drops the legitimate tick-0 entry, so the returned
`timestamps` is `[]` (≠ `[0.0]`) while `fragmentcounts` is `[100]`; the
frequency, `n` and the 0.001-scaled samples are as claimed. -/
theorem C1_tick0_fragment_timestamp :
    exValue? (pl2_ad scenarioFile (Channel.byIndex 0)) =
      some { adfrequency := 40000, n := 100, timestamps := [],
             fragmentcounts := [100], ad := List.replicate 100 (1 / 1000 : ℚ) } ∧
    ([] : List ℚ) ≠ [0] := by
  constructor
  · norm_num [pl2_ad, lookupAnalog, resolveByIndex, scenarioFile, scenarioAnalogChannel,
      fillBuffer, to_array, to_array_nonzero, sample_to_volts, ticks_to_seconds, exValue?,
      List.get?, List.filter, List.take_replicate]
  · simp

/-- C2: for every channel kind (analog, spike, digital), the three selector
forms — zero-based global index, channel name, and (source id, in-source
channel number) — resolve the same physical channel to the same descriptor,
hence one that is equal field for field, provided the catalog's names and
source pairs are unambiguous. -/
theorem C2_selector_equivalence :
    (∀ (l : List PL2AnalogChannelInfo) (i : Nat) (c : PL2AnalogChannelInfo),
      l.Pairwise (fun a b => a.m_Name ≠ b.m_Name) →
      l.Pairwise (fun a b => (a.m_Source, a.m_Channel) ≠ (b.m_Source, b.m_Channel)) →
      resolveByIndex l i = some c →
      resolveByName (fun x => x.m_Name) c.m_Name l = some c ∧
        resolveBySource (fun x => x.m_Source) (fun x => x.m_Channel) c.m_Source c.m_Channel
          l = some c) ∧
    (∀ (l : List PL2SpikeChannelInfo) (i : Nat) (c : PL2SpikeChannelInfo),
      l.Pairwise (fun a b => a.m_Name ≠ b.m_Name) →
      l.Pairwise (fun a b => (a.m_Source, a.m_Channel) ≠ (b.m_Source, b.m_Channel)) →
      resolveByIndex l i = some c →
      resolveByName (fun x => x.m_Name) c.m_Name l = some c ∧
        resolveBySource (fun x => x.m_Source) (fun x => x.m_Channel) c.m_Source c.m_Channel
          l = some c) ∧
    (∀ (l : List PL2DigitalChannelInfo) (i : Nat) (c : PL2DigitalChannelInfo),
      l.Pairwise (fun a b => a.m_Name ≠ b.m_Name) →
      l.Pairwise (fun a b => (a.m_Source, a.m_Channel) ≠ (b.m_Source, b.m_Channel)) →
      resolveByIndex l i = some c →
      resolveByName (fun x => x.m_Name) c.m_Name l = some c ∧
        resolveBySource (fun x => x.m_Source) (fun x => x.m_Channel) c.m_Source c.m_Channel
          l = some c) := by
  refine ⟨?_, ?_, ?_⟩ <;>
    exact fun l i c hn hsrc hi =>
      ⟨resolveByKey_of_get _ l i c hn hi, resolveByKey_of_get _ l i c hsrc hi⟩

/-- Witness for C2: a concrete two-channel analog catalog where the second
channel is found identically by index 1, by its name and by its source
pair. -/
theorem C2_selector_equivalence_witness :
    ([scenarioAnalogChannel.info, padChannel.info].Pairwise
        (fun a b => a.m_Name ≠ b.m_Name) ∧
      [scenarioAnalogChannel.info, padChannel.info].Pairwise
        (fun a b => (a.m_Source, a.m_Channel) ≠ (b.m_Source, b.m_Channel)) ∧
      resolveByIndex [scenarioAnalogChannel.info, padChannel.info] 1 =
        some padChannel.info) ∧
    (resolveByName (fun x => x.m_Name) padChannel.info.m_Name
        [scenarioAnalogChannel.info, padChannel.info] = some padChannel.info ∧
      resolveBySource (fun x => x.m_Source) (fun x => x.m_Channel)
        padChannel.info.m_Source padChannel.info.m_Channel
        [scenarioAnalogChannel.info, padChannel.info] = some padChannel.info) :=
  ⟨⟨by decide, by decide, rfl⟩,
   C2_selector_equivalence.1 [scenarioAnalogChannel.info, padChannel.info] 1
     padChannel.info (by decide) (by decide) rfl⟩

/-- C3: the argument lists `pl2_ad` passes into the reader layer do not
bind against the reader-layer signatures in src/pypl2lib.py:
`p.pl2_get_file_info()` passes 0 arguments where 1 is required,
`p.pl2_get_analog_channel_info(channel)` and the by-name variant pass 1
where 2 are required, so each call raises `TypeError` instead of
succeeding.  The repository's own test fixture (src/test_pypl2.py line
117) calls `pl2_get_file_info` with 0 arguments, agreeing with the claim
and with `pl2_ad` and contradicting the reader layer. -/
theorem C3_reader_call_arity_mismatch :
    pythonCallBinds argsPassed_pl2_get_file_info paramsRequired_pl2_get_file_info = false ∧
    pythonCallBinds argsPassed_pl2_get_analog_channel_info
      paramsRequired_pl2_get_analog_channel_info = false ∧
    pythonCallBinds argsPassed_pl2_get_analog_channel_info_by_name
      paramsRequired_pl2_get_analog_channel_info_by_name = false ∧
    pythonCallBinds argsPassedByTest_pl2_get_file_info
      paramsRequired_pl2_get_file_info = false := by
  decide

/-- C4: every successful spike read partitions the flat value buffer of
length `m_NumberOfSpikes * m_SamplesPerSpike` into one row per reported
spike, each row of length `m_SamplesPerSpike`, preserving order (the rows
flatten back to the coefficient-scaled buffer); and the spec section 8
scenario (2 spikes, 3 samples per spike, raw values [1,2,3,4,5,6],
coefficient 0.01) yields the waveform matrix
[[0.01,0.02,0.03],[0.04,0.05,0.06]]. -/
theorem C4_spike_waveform_reshape :
    (∀ (f : PL2File) (ch : Channel) (c : SpikeChannel) (r : PL2Spikes),
      lookupSpike f ch = some c → pl2_spikes f ch = Except.ok r →
      r.n = c.info.m_NumberOfSpikes ∧ r.waveforms.length = r.n ∧
      (∀ w ∈ r.waveforms, w.length = c.info.m_SamplesPerSpike) ∧
      r.waveforms.flatten =
        (fillBuffer (c.info.m_NumberOfSpikes * c.info.m_SamplesPerSpike) (0 : Int)
            c.data.values).map
          (fun (v : Int) => sample_to_volts (v : ℚ) c.info.m_CoeffToConvertToUnits)) ∧
    exValue? (pl2_spikes spikeScenarioFile (Channel.byIndex 0)) =
      some { n := 2, timestamps := [1 / 400, 1 / 200], units := [0, 1],
             waveforms := [[1 / 100, 1 / 50, 3 / 100], [1 / 25, 1 / 20, 3 / 50]] } := by
  constructor
  · intro f ch c r hc hr
    rw [pl2_spikes_of_lookup f ch c hc] at hr
    split at hr
    case isTrue h =>
      injection hr with hr
      subst hr
      have hlen : ((fillBuffer (c.info.m_NumberOfSpikes * c.info.m_SamplesPerSpike) (0 : Int)
            c.data.values).map
          (fun (v : Int) => sample_to_volts (v : ℚ) c.info.m_CoeffToConvertToUnits)).length =
          c.data.numSpikes * c.info.m_SamplesPerSpike := by
        rw [List.length_map, fillBuffer_length, h]
      exact ⟨h.symm, reshapeRows_length _ _ _,
        reshapeRows_row_length _ _ _ hlen, reshapeRows_flatten _ _ _ hlen⟩
    case isFalse h => simp at hr
  · norm_num [pl2_spikes, lookupSpike, resolveByIndex, spikeScenarioFile,
      spikeScenarioChannel, fillBuffer, to_array, sample_to_volts, ticks_to_seconds,
      exValue?, reshapeRows, List.get?]

theorem spikeScenarioRecord_eq :
    pl2_spikes spikeScenarioFile (Channel.byIndex 0) = Except.ok spikeScenarioRecord := by
  norm_num [pl2_spikes, lookupSpike, resolveByIndex, spikeScenarioFile,
    spikeScenarioChannel, spikeScenarioRecord, fillBuffer, to_array, sample_to_volts,
    ticks_to_seconds, reshapeRows, List.get?]

/-- Witness for C4: the general reshape law applied at the spec section 8
spike scenario. -/
theorem C4_spike_waveform_reshape_witness :
    (lookupSpike spikeScenarioFile (Channel.byIndex 0) = some spikeScenarioChannel ∧
      pl2_spikes spikeScenarioFile (Channel.byIndex 0) = Except.ok spikeScenarioRecord) ∧
    (spikeScenarioRecord.n = spikeScenarioChannel.info.m_NumberOfSpikes ∧
      spikeScenarioRecord.waveforms.length = spikeScenarioRecord.n ∧
      (∀ w ∈ spikeScenarioRecord.waveforms,
        w.length = spikeScenarioChannel.info.m_SamplesPerSpike) ∧
      spikeScenarioRecord.waveforms.flatten =
        (fillBuffer
            (spikeScenarioChannel.info.m_NumberOfSpikes *
              spikeScenarioChannel.info.m_SamplesPerSpike) (0 : Int)
            spikeScenarioChannel.data.values).map
          (fun (v : Int) => sample_to_volts (v : ℚ)
            spikeScenarioChannel.info.m_CoeffToConvertToUnits)) :=
  ⟨⟨rfl, spikeScenarioRecord_eq⟩,
   C4_spike_waveform_reshape.1 spikeScenarioFile (Channel.byIndex 0)
     spikeScenarioChannel spikeScenarioRecord rfl spikeScenarioRecord_eq⟩

/-- Counterexample to C5: a spike read whose native reader reports 1 actual
spike against a declared count of 2, and an event read reporting 2 actual
events against a declared count of 3, both fail (`assert` requires exact
equality at src/pypl2api.py lines 188 and 269), although the claim says
actual counts strictly below capacity must succeed. -/
theorem C5_short_read_fails_counterexample :
    exOk (pl2_spikes underCountFile (Channel.byIndex 0)) = false ∧
    exOk (pl2_events underCountFile (Channel.byIndex 0)) = false := by
  decide

/-- C5 (amended): an analog fetch succeeds exactly when both
native-reported actual counts are at most the descriptor capacities
(`assert cap >= actual`, src/pypl2api.py lines 100-101), while spike and
event fetches succeed exactly when the reported count equals the declared
count (`assert declared == actual`, lines 188 and 269), so strictly
smaller actual spike or event counts also fail. -/
theorem C5_fetch_failure_conditions :
    (∀ (f : PL2File) (ch : Channel) (c : AnalogChannel), lookupAnalog f ch = some c →
      (exOk (pl2_ad f ch) = true ↔
        c.data.numFragments ≤ c.info.m_MaximumNumberOfFragments ∧
          c.data.numDataPoints ≤ c.info.m_NumberOfValues)) ∧
    (∀ (f : PL2File) (ch : Channel) (c : SpikeChannel), lookupSpike f ch = some c →
      (exOk (pl2_spikes f ch) = true ↔ c.info.m_NumberOfSpikes = c.data.numSpikes)) ∧
    (∀ (f : PL2File) (ch : Channel) (c : DigitalChannel), lookupDigital f ch = some c →
      (exOk (pl2_events f ch) = true ↔ c.info.m_NumberOfEvents = c.data.numEvents)) := by
  refine ⟨?_, ?_, ?_⟩
  · intro f ch c hc
    rw [pl2_ad_of_lookup f ch c hc]
    split
    case isTrue h1 =>
      split
      case isTrue h2 => simpa [exOk] using ⟨h1, h2⟩
      case isFalse h2 =>
        simp only [exOk, Bool.false_eq_true, false_iff]
        rintro ⟨-, hb⟩
        exact h2 hb
    case isFalse h1 =>
      simp only [exOk, Bool.false_eq_true, false_iff]
      rintro ⟨ha, -⟩
      exact h1 ha
  · intro f ch c hc
    rw [pl2_spikes_of_lookup f ch c hc]
    split
    case isTrue h => simpa [exOk] using h
    case isFalse h =>
      simp only [exOk, Bool.false_eq_true, false_iff]
      exact h
  · intro f ch c hc
    rw [pl2_events_of_lookup f ch c hc]
    split
    case isTrue h => simpa [exOk] using h
    case isFalse h =>
      simp only [exOk, Bool.false_eq_true, false_iff]
      exact h

/-- Witness for C5: the success conditions applied at the spec section 8
spike scenario, where the declared and reported counts agree. -/
theorem C5_fetch_failure_conditions_witness :
    lookupSpike spikeScenarioFile (Channel.byIndex 0) = some spikeScenarioChannel ∧
    (exOk (pl2_spikes spikeScenarioFile (Channel.byIndex 0)) = true ↔
      spikeScenarioChannel.info.m_NumberOfSpikes = spikeScenarioChannel.data.numSpikes) :=
  ⟨rfl, C5_fetch_failure_conditions.2.1 spikeScenarioFile (Channel.byIndex 0)
    spikeScenarioChannel rfl⟩

/-- Counterexample to C6: requesting the absent channel name
"DoesNotExist" does not raise any error (the by-name info call's failure
status is ignored and a degenerate record is returned), and when an error
does surface (the fragment-capacity assert on `overflowFile`), the handle
is still open when it propagates — there is no try/finally between
`pl2_open_file` (src/pypl2api.py line 67) and `pl2_close_file` (line
104). -/
theorem C6_error_paths_counterexample :
    exOk (pl2_ad_session scenarioFile (Channel.byName (r"DoesNotExist"))).fst = true ∧
    exOk (pl2_ad_session overflowFile (Channel.byIndex 0)).fst = false ∧
    (pl2_ad_session overflowFile (Channel.byIndex 0)).snd = true := by
  decide

/-- C6 (amended): `pl2_ad` leaves the file handle open exactly when it
raises — the close at src/pypl2api.py line 104 only runs after both asserts
pass, and no `ChannelNotFoundError` exists: an unresolvable channel name
leaves the zero-filled descriptor in place and the call returns a
degenerate record (frequency 0, no points, empty sequences) with the file
closed. -/
theorem C6_error_path_behavior :
    (∀ (f : PL2File) (ch : Channel),
      (pl2_ad_session f ch).snd = true ↔ exOk (pl2_ad_session f ch).fst = false) ∧
    (∀ (f : PL2File) (s : String), lookupAnalog f (Channel.byName s) = none →
      pl2_ad_session f (Channel.byName s) =
        (Except.ok { adfrequency := 0, n := 0, timestamps := [], fragmentcounts := [],
                     ad := [] }, false)) := by
  constructor
  · intro f ch
    unfold pl2_ad_session
    cases pl2_ad f ch <;> simp [exOk]
  · intro f s h
    unfold pl2_ad_session
    rw [pl2_ad_of_lookup_none f (Channel.byName s) h]

/-- Witness for C6: the missing-name behaviour at the concrete scenario
file and the absent name "DoesNotExist". -/
theorem C6_error_path_behavior_witness :
    lookupAnalog scenarioFile (Channel.byName (r"DoesNotExist")) = none ∧
    pl2_ad_session scenarioFile (Channel.byName (r"DoesNotExist")) =
      (Except.ok { adfrequency := 0, n := 0, timestamps := [], fragmentcounts := [],
                   ad := [] }, false) :=
  ⟨by decide, C6_error_path_behavior.2 scenarioFile (r"DoesNotExist") (by decide)⟩

/-- C7: `pl2_info` scans each channel kind once in index order and returns
exactly the enabled spike channels (channel number, name, per-unit count
table), the digital channels with a nonzero event count (channel number,
name, count), and the enabled analog channels (channel number, name, sample
count); disabled spike/analog channels and zero-event digital channels are
excluded; and when every spike descriptor carries the 256-entry unit-count
table, so does every returned spike row. -/
theorem C7_pl2_info_filters (f : PL2File)
    (hs : f.fileInfo.m_TotalNumberOfSpikeChannels = f.spikeChannels.length)
    (hd : f.fileInfo.m_NumberOfDigitalChannels = f.digitalChannels.length)
    (ha : f.fileInfo.m_TotalNumberOfAnalogChannels = f.analogChannels.length) :
    (pl2_info f).spikes =
        (f.spikeChannels.filter (fun c => decide (c.info.m_ChannelEnabled ≠ 0))).map
          (fun c => ({ channel := c.info.m_Channel, name := c.info.m_Name,
                       units := c.info.m_UnitCounts } : spike_info)) ∧
    (pl2_info f).events =
        (f.digitalChannels.filter (fun c => decide (c.info.m_NumberOfEvents ≠ 0))).map
          (fun c => ({ channel := c.info.m_Channel, name := c.info.m_Name,
                       n := c.info.m_NumberOfEvents } : event_info)) ∧
    (pl2_info f).ad =
        (f.analogChannels.filter (fun c => decide (c.info.m_ChannelEnabled ≠ 0))).map
          (fun c => ({ channel := c.info.m_Channel, name := c.info.m_Name,
                       n := c.info.m_NumberOfValues } : ad_info)) ∧
    ((∀ c ∈ f.spikeChannels, c.info.m_UnitCounts.length = 256) →
      ∀ s ∈ (pl2_info f).spikes, s.units.length = 256) := by
  have h1 : (pl2_info f).spikes =
      (f.spikeChannels.filter (fun c => decide (c.info.m_ChannelEnabled ≠ 0))).map
        (fun c => ({ channel := c.info.m_Channel, name := c.info.m_Name,
                     units := c.info.m_UnitCounts } : spike_info)) := by
    simp only [pl2_info]
    rw [scanIdx_eq_filterMap, hs, ← List.range_eq_range', range_filterMap_get?,
      filterMap_ite (fun c : SpikeChannel => c.info.m_ChannelEnabled ≠ 0)]
  have h2 : (pl2_info f).events =
      (f.digitalChannels.filter (fun c => decide (c.info.m_NumberOfEvents ≠ 0))).map
        (fun c => ({ channel := c.info.m_Channel, name := c.info.m_Name,
                     n := c.info.m_NumberOfEvents } : event_info)) := by
    simp only [pl2_info]
    rw [scanIdx_eq_filterMap, hd, ← List.range_eq_range', range_filterMap_get?,
      filterMap_ite (fun c : DigitalChannel => c.info.m_NumberOfEvents ≠ 0)]
  have h3 : (pl2_info f).ad =
      (f.analogChannels.filter (fun c => decide (c.info.m_ChannelEnabled ≠ 0))).map
        (fun c => ({ channel := c.info.m_Channel, name := c.info.m_Name,
                     n := c.info.m_NumberOfValues } : ad_info)) := by
    simp only [pl2_info]
    rw [scanIdx_eq_filterMap, ha, ← List.range_eq_range', range_filterMap_get?,
      filterMap_ite (fun c : AnalogChannel => c.info.m_ChannelEnabled ≠ 0)]
  refine ⟨h1, h2, h3, ?_⟩
  intro h256 s hsmem
  rw [h1] at hsmem
  rcases List.mem_map.mp hsmem with ⟨c, hcmem, rfl⟩
  exact h256 c (List.mem_of_mem_filter hcmem)

/-- Witness for C7: the filter law applied at a file holding one enabled
and one disabled (or event-free) channel of each kind. -/
theorem C7_pl2_info_filters_witness :
    (infoFile.fileInfo.m_TotalNumberOfSpikeChannels = infoFile.spikeChannels.length ∧
      infoFile.fileInfo.m_NumberOfDigitalChannels = infoFile.digitalChannels.length ∧
      infoFile.fileInfo.m_TotalNumberOfAnalogChannels = infoFile.analogChannels.length) ∧
    ((pl2_info infoFile).spikes =
        (infoFile.spikeChannels.filter (fun c => decide (c.info.m_ChannelEnabled ≠ 0))).map
          (fun c => ({ channel := c.info.m_Channel, name := c.info.m_Name,
                       units := c.info.m_UnitCounts } : spike_info)) ∧
      (pl2_info infoFile).events =
        (infoFile.digitalChannels.filter
            (fun c => decide (c.info.m_NumberOfEvents ≠ 0))).map
          (fun c => ({ channel := c.info.m_Channel, name := c.info.m_Name,
                       n := c.info.m_NumberOfEvents } : event_info)) ∧
      (pl2_info infoFile).ad =
        (infoFile.analogChannels.filter
            (fun c => decide (c.info.m_ChannelEnabled ≠ 0))).map
          (fun c => ({ channel := c.info.m_Channel, name := c.info.m_Name,
                       n := c.info.m_NumberOfValues } : ad_info)) ∧
      ((∀ c ∈ infoFile.spikeChannels, c.info.m_UnitCounts.length = 256) →
        ∀ s ∈ (pl2_info infoFile).spikes, s.units.length = 256)) :=
  ⟨⟨rfl, rfl, rfl⟩, C7_pl2_info_filters infoFile rfl rfl rfl⟩

/-- Counterexample to C8: on a file whose tick frequency (and the
channel's sampling frequency) is zero, `pl2_ad` does not fail with any
error — it returns a record, dividing the fragment timestamps by zero (in
this exact-rational model the total division yields 0; in the source's
IEEE doubles it yields non-finite values).  No `ConversionError` exists in
the code. -/
theorem C8_zero_frequency_counterexample :
    exValue? (pl2_ad zeroFreqFile (Channel.byIndex 0)) =
      some { adfrequency := 0, n := 2, timestamps := [0], fragmentcounts := [2],
             ad := [1 / 1000, 1 / 500] } := by
  norm_num [pl2_ad, lookupAnalog, resolveByIndex, zeroFreqFile, zeroFreqChannel,
    fillBuffer, to_array, to_array_nonzero, sample_to_volts, ticks_to_seconds, exValue?,
    List.get?, List.filter]

/-- C8 (amended): `pl2_ad` performs no validation of the sampling or tick
frequency — whether a call succeeds is unchanged under replacing the
file's tick frequency by any other value (the frequency is only used in
the division at src/pypl2api.py line 112, after both asserts). -/
theorem C8_no_conversion_guard (f : PL2File) (ch : Channel) (q q' : ℚ) :
    exOk (pl2_ad (withTickFrequency f q) ch) =
      exOk (pl2_ad (withTickFrequency f q') ch) := by
  cases hl : lookupAnalog f ch with
  | none =>
    rw [pl2_ad_of_lookup_none _ _ ((lookupAnalog_withTickFrequency f q ch).trans hl),
      pl2_ad_of_lookup_none _ _ ((lookupAnalog_withTickFrequency f q' ch).trans hl)]
  | some c =>
    rw [pl2_ad_of_lookup _ _ c ((lookupAnalog_withTickFrequency f q ch).trans hl),
      pl2_ad_of_lookup _ _ c ((lookupAnalog_withTickFrequency f q' ch).trans hl)]
    split
    · split
      · rfl
      · rfl
    · rfl

/-- Counterexample to C9: with the representable coefficient 0 the
round-trip does not recover the raw code — `sample_to_volts 1 0 / 0` is 0
(NaN in the source's IEEE doubles), not 1, and the error exceeds any
epsilon. -/
theorem C9_zero_coefficient_counterexample :
    sample_to_volts 1 0 / 0 ≠ (1 : ℚ) := by
  norm_num [sample_to_volts]

/-- C9 (amended): for every raw code and every nonzero coefficient, the
round-trip `sample_to_volts raw coeff / coeff` recovers `raw` exactly in
this exact-arithmetic model (hence within floating-point epsilon in the
source's doubles). -/
theorem C9_roundtrip_nonzero_coefficient (raw coeff : ℚ) (h : coeff ≠ 0) :
    sample_to_volts raw coeff / coeff = raw := by
  unfold sample_to_volts
  exact mul_div_cancel_right₀ raw h

/-- Witness for C9: the round-trip at the representable c_short code
-32768 and coefficient 0.001. -/
theorem C9_roundtrip_nonzero_coefficient_witness :
    (1 / 1000 : ℚ) ≠ 0 ∧
    sample_to_volts (-32768) (1 / 1000) / (1 / 1000) = -32768 :=
  ⟨by norm_num, C9_roundtrip_nonzero_coefficient (-32768) (1 / 1000) (by norm_num)⟩

/-- C10: every successful analog read returns an `ad` sequence whose
length is the descriptor's declared capacity `m_NumberOfValues` (the
buffer allocated at src/pypl2api.py line 82 is converted whole by
`to_array` at line 114), while the returned `n` is the native-reported
actual count, so when the actual count is strictly below the capacity the
zero-padded tail is retained and `ad` is strictly longer than `n`. -/
theorem C10_ad_length_capacity (f : PL2File) (ch : Channel) (c : AnalogChannel)
    (r : PL2Ad) (hc : lookupAnalog f ch = some c)
    (hr : pl2_ad f ch = Except.ok r) :
    r.ad.length = c.info.m_NumberOfValues ∧ r.n = c.data.numDataPoints ∧
      (c.data.numDataPoints < c.info.m_NumberOfValues → r.n < r.ad.length) := by
  rw [pl2_ad_of_lookup f ch c hc] at hr
  split at hr
  case isTrue h1 =>
    split at hr
    case isTrue h2 =>
      injection hr with hr
      subst hr
      refine ⟨?_, rfl, ?_⟩
      · simp [to_array, fillBuffer_length]
      · intro hlt
        simpa [to_array, fillBuffer_length] using hlt
    case isFalse h2 => simp at hr
  case isFalse h1 => simp at hr

theorem padRecord_eq : pl2_ad padFile (Channel.byIndex 0) = Except.ok padRecord := by
  norm_num [pl2_ad, lookupAnalog, resolveByIndex, padFile, padChannel, padRecord,
    fillBuffer, to_array, to_array_nonzero, sample_to_volts, ticks_to_seconds,
    List.get?, List.filter, List.replicate]

/-- Witness for C10: the capacity law applied at a channel declaring 4
values of which only 2 are actual data points. -/
theorem C10_ad_length_capacity_witness :
    (lookupAnalog padFile (Channel.byIndex 0) = some padChannel ∧
      pl2_ad padFile (Channel.byIndex 0) = Except.ok padRecord) ∧
    (padRecord.ad.length = padChannel.info.m_NumberOfValues ∧
      padRecord.n = padChannel.data.numDataPoints ∧
      (padChannel.data.numDataPoints < padChannel.info.m_NumberOfValues →
        padRecord.n < padRecord.ad.length)) :=
  ⟨⟨rfl, padRecord_eq⟩,
   C10_ad_length_capacity padFile (Channel.byIndex 0) padChannel padRecord rfl
     padRecord_eq⟩
